import Mathlib

/-!
Shallow embedding of `src/moonraker/components/update_manager/ota_deploy.py`
(the `OtaDeploy` component) and proofs about the claims concerning its
polling loop, ETA estimator, stall/error policies and refresh behaviour.

Modelling conventions:
* Python floats are modelled as exact rationals (`ℚ`); the polling clock is
  exogenous: every poll tick carries the two clock readings the code makes
  (`time` at line 107, `time2` at the stall check of line 198).
* A raw status payload field that is absent or falsy (`s.get(k) or d`) is
  modelled with `Option`/the empty string, matching how the code only ever
  distinguishes truthiness.
* `notify_status(msg, is_complete)` appends `(msg, is_complete)` to a list.
* Exceptions are explicit: a poll tick is `Except String OtaStatus`
  (`.error` = the poll raised), and the `raise self.server.error(...)`
  inside the loop body is modelled exactly where the source performs it —
  in particular the source raise at line 119 is inside the `try:` of
  line 97 and is therefore caught by the `except Exception` handler at
  line 208, which the embedding reproduces faithfully (`stepFail`).
-/

namespace OtaDeploy

/-! ### Constants (lines 11-26 of the source) -/

def POLL_SECS : ℚ := 3/4
def PROGRESS_IDLE_TIMEOUT : ℚ := 60
def MAX_CONSECUTIVE_ERRORS : ℕ := 5
def PROGRESS_ANNOUNCE_STEP : ℚ := 1/2
def REBOOT_NOTICE_PCT : ℚ := 197/2
def REBOOT_SAFETY_BAND : ℚ := 1
def NEAR_END_MIN_SLEEP : ℚ := 1/5
def REBOOT_PRENOTICE_SECS : ℚ := 5/2
def ETA_WINDOW_SECS : ℚ := 30
def ETA_MIN_DPCT : ℚ := 1
def ETA_SMOOTHING : ℚ := 1/4
def ETA_MAX_JUMP_SECS : ℚ := 45

/-! ### Raw status payloads and the mapped component state -/

/-- Python `str.lower()`.  (`String.toLower` itself is definitionally
equivalent but is defined by well-founded recursion, so this executable
form maps the character list directly; the ASCII case mapping of
`Char.toLower` covers every phase string the component compares.) -/
def pyLower (s : String) : String := String.mk (s.data.map Char.toLower)

/-- A well-formed (dict) OTA status payload.  `state`/`error` use `""` for an
absent or falsy value (the code only tests truthiness via `... or ""`);
`progress` is `none` when absent or non-numeric (`_map_status`, line 306);
`current_version`/`target_version` use `none` for absent-or-falsy. -/
structure OtaStatus where
  state : String := ""
  error : String := ""
  progress : Option ℚ := none
  current_version : Option String := none
  target_version : Option String := none
  update_available : Bool := false
  requires_commit : Bool := false
deriving DecidableEq, Repr

/-- A raw payload as returned by `aux.ota_status()`: either a dict or
something else (list, scalar, ...). -/
inductive RawPayload where
  | dict (s : OtaStatus)
  | nondict
deriving DecidableEq, Repr

/-- Component state: the fields set in `__init__` (lines 39-48). -/
structure OtaState where
  status : OtaStatus := {}
  is_valid : Bool := true
  warnings : List String := []
  anomalies : List String := []
  current : Option String := none
  target : Option String := none
  requires_commit : Bool := false
  progress : Option ℚ := none
  state_ : Option String := none
deriving DecidableEq, Repr

/-- `_map_status` (lines 295-306). -/
def map_status (c : OtaState) (s : OtaStatus) : OtaState :=
  let current := match s.current_version with
    | some v => some v
    | none => c.current
  let target := if s.update_available then
      (match s.target_version with
        | some v => some v
        | none => c.target)
    else current
  { c with
    state_ := some (pyLower s.state)
    current := current
    target := target
    requires_commit := s.requires_commit
    progress := s.progress }

/-- `_aux_status` (lines 289-293): raises a server error when the payload is
not a dict. -/
def aux_status (raw : RawPayload) : Except String OtaStatus :=
  match raw with
  | .dict s => .ok s
  | .nondict => .error "Invalid OTA status payload (not a dict)"

/-- What one `refresh()` call observes from the aux component: either one of
the two awaits raised (with the exception text), or a raw payload arrived. -/
inductive RefreshInput where
  | fail (msg : String)
  | payload (raw : RawPayload)
deriving DecidableEq, Repr

/-- The `except` branch of `refresh` (lines 65-68). -/
def refreshFail (c : OtaState) (msg : String) : OtaState :=
  { c with
    is_valid := false
    warnings := c.warnings ++ ["OTA status fetch failed: " ++ msg] }

/-- `refresh` (lines 57-70).  `_save_state` only persists, it does not
change the modelled fields. -/
def refresh (c : OtaState) (inp : RefreshInput) : OtaState :=
  match inp with
  | .fail m => refreshFail c m
  | .payload raw =>
    match aux_status raw with
    | .error m => refreshFail c m
    | .ok s => { map_status c s with status := s, is_valid := true }

/-- The record returned by `get_update_status` (lines 256-274). -/
structure UpdateStatusView where
  name : String
  configured_type : String
  version : String
  remote_version : String
  current_hash : String
  remote_hash : String
  requires_commit : Bool
  progress : Option ℚ
  is_valid : Bool
  warnings : List String
  anomalies : List String
  info_tags : List String
deriving DecidableEq, Repr

/-- `get_update_status` (lines 256-274). -/
def get_update_status (c : OtaState) (name : String) : UpdateStatusView :=
  let version := c.current.getD "?"
  let remote_version := c.target.getD version
  { name := name
    configured_type := "ota"
    version := version
    remote_version := remote_version
    current_hash := c.current.getD version
    remote_hash := c.target.getD remote_version
    requires_commit := c.requires_commit
    progress := c.progress
    is_valid := c.is_valid
    warnings := c.warnings
    anomalies := c.anomalies
    info_tags := ["desc=System Image"] }

/-- A freshly constructed component (`__init__`). -/
def initState : OtaState := {}

/-! ### The `update()` polling loop (lines 72-239) -/

/-- One iteration's worth of input to the loop: the two clock readings the
body makes (line 107 and the stall check at line 198) and the poll result
(`.error` = `aux.ota_status()` raised, carrying the exception text). -/
structure Tick where
  time : ℚ
  time2 : ℚ
  result : Except String OtaStatus

/-- The local variables of `update()` (lines 78-93) together with the
component state and the stream of `notify_status` emissions
`(message, is_complete)`. -/
structure LoopSt where
  comp : OtaState
  last_progress : Option ℚ
  last_announced_pct : Option ℚ
  last_state : Option String
  last_change_time : ℚ
  consecutive_errors : ℕ
  reboot_announced : Bool
  progress_history : List (ℚ × ℚ)
  spin_idx : ℕ
  smoothed_eta : Option ℚ
  notifs : List (String × Bool)

/-- Outcome of `update()`: a `return True` or a raised server error. -/
inductive Outcome where
  | success
  | raised (msg : String)
deriving DecidableEq, Repr

/-- Result of one loop body iteration. -/
inductive StepRes where
  | cont (s : LoopSt)
  | brk (s : LoopSt)
  | ret (s : LoopSt)

def StepRes.state : StepRes → LoopSt
  | .cont s => s
  | .brk s => s
  | .ret s => s

/-- Result of running the loop on a finite tick list: either the input was
exhausted while the loop was still going (no termination observed), or
`update()` terminated with an outcome. -/
inductive RunRes where
  | outOfInput (s : LoopSt)
  | done (s : LoopSt) (o : Outcome)

def RunRes.state : RunRes → LoopSt
  | .outOfInput s => s
  | .done s _ => s

def RunRes.isDone : RunRes → Bool
  | .outOfInput _ => false
  | .done _ _ => true

/-- The observed outcome, when the run terminated. -/
def RunRes.outcome : RunRes → Option Outcome
  | .outOfInput _ => none
  | .done _ o => some o

def notify (s : LoopSt) (m : String) (c : Bool) : LoopSt :=
  { s with notifs := s.notifs ++ [(m, c)] }

def addWarning (s : LoopSt) (w : String) : LoopSt :=
  { s with comp := { s.comp with warnings := s.comp.warnings ++ [w] } }

/-- Line 123 / 173 / 179. -/
def rebootMsg : String := "⏳ Update installed. Preparing to reboot into the new system…"

/-- Line 234. -/
def stillMsg : String := "⏳ Update still in progress… device may reboot soon."

/-- Line 237. -/
def doneMsg : String := "✔ Update initiated. The device may reboot to finish installation."

/-- Line 199. -/
def stallWarn : String := "No progress reported for a while; assuming reboot or stall."

/-- Line 74. -/
def startMsg : String := "Starting OS image update… device may reboot."

/-- Two-digit rendering used by the `{secs:02d}` format of line 192. -/
def fmt2 (n : Int) : String := if n < 10 then "0" ++ toString n else toString n

/-- The optional ETA suffix of the progress line (lines 189-192).  `int()`
truncation equals `Int.floor` here since the value is positive. -/
def etaText (eta : Option ℚ) : String :=
  match eta with
  | some e =>
    if e > 5 then
      let total : Int := Int.floor e
      let mins := total / 60
      let secs := total % 60
      if mins > 0 then " (≈" ++ toString mins ++ "m " ++ fmt2 secs ++ "s)"
      else " (≈" ++ toString secs ++ "s)"
    else ""
  | none => ""

/-- The bar of line 186-187 (`int()` truncation; the percent is
non-negative whenever the backend reports one). -/
def barText (p : ℚ) : String :=
  let filled := (Int.floor (20 * p / 100)).toNat
  String.mk (List.replicate filled '█' ++ List.replicate (20 - filled) '·')

/-- One-decimal rendering of the percent; the `{pct:5.1f}` float
formatting (width padding, round-half-even) is abstracted to truncation
since no claim depends on the digits. -/
def fmtPct (p : ℚ) : String :=
  let t : Int := Int.floor (p * 10)
  toString (t / 10) ++ "." ++ toString (t % 10)

/-- The styled progress line of line 194.  Note that the spinner character
computed at lines 184-185 does not occur in the f-string of the source, so
it only advances `spin_idx`. -/
def progressLine (p : ℚ) (eta : Option ℚ) : String :=
  "Installing " ++ (barText p ++ (" " ++ (fmtPct p ++ ("%" ++ etaText eta))))

/-- The ETA fit of lines 143-167 on the (already windowed) history `h2`,
returning `(eta_secs, new smoothed_eta_secs)`.  The `getD (0, 0)` defaults
are never exercised: the branch requires `h2.length ≥ 3`. -/
def etaFit (h2 : List (ℚ × ℚ)) (p : ℚ) (smoothed : Option ℚ) :
    Option ℚ × Option ℚ :=
  if h2.length ≥ 3 then
    let n : ℚ := (h2.length : ℚ)
    let sum_t := (h2.map Prod.fst).sum
    let sum_p := (h2.map Prod.snd).sum
    let sum_tt := (h2.map (fun q => q.1 * q.1)).sum
    let sum_tp := (h2.map (fun q => q.1 * q.2)).sum
    let denom := n * sum_tt - sum_t * sum_t
    if denom ≠ 0 then
      let slope := (n * sum_tp - sum_t * sum_p) / denom
      let moved := (h2.getLast?.getD (0, 0)).2 - (h2.head?.getD (0, 0)).2
      if slope > 0 ∧ moved ≥ ETA_MIN_DPCT then
        let remaining := max 0 (100 - p)
        let inst := remaining / slope
        let newSm :=
          match smoothed with
          | none => inst
          | some prev =>
            let candidate := prev * (1 - ETA_SMOOTHING) + inst * ETA_SMOOTHING
            let delta := max (-ETA_MAX_JUMP_SECS) (min ETA_MAX_JUMP_SECS (candidate - prev))
            prev + delta
        (some newSm, some newSm)
      else (none, smoothed)
    else (none, smoothed)
  else (none, smoothed)

/-- Decidable form of `eta_secs is not None and eta_secs <= c`. -/
def etaAtMost (o : Option ℚ) (c : ℚ) : Bool :=
  match o with
  | some e => decide (e ≤ c)
  | none => false

/-- Decidable form of the announce throttle of line 183:
`(last_announced_pct is None) or (pct - last_announced_pct >= STEP)`. -/
def shouldAnnounce (o : Option ℚ) (p : ℚ) : Bool :=
  match o with
  | none => true
  | some la => decide (p - la ≥ PROGRESS_ANNOUNCE_STEP)

/-- The `st == "installing" and pct is not None` branch (lines 131-195).
The returned `Bool` is `true` when the branch hit a `return True`
(preemptive or threshold reboot notice). -/
def installingStep (s : LoopSt) (now p : ℚ) : Bool × LoopSt :=
  let h1 := (s.progress_history ++ [(now, p)]).filter (fun q => now - q.1 ≤ 15)
  let h2 := (h1 ++ [(now, p)]).filter (fun q => now - q.1 ≤ ETA_WINDOW_SECS)
  let fit := etaFit h2 p s.smoothed_eta
  let eta_secs := fit.1
  let s1 := { s with progress_history := h2, smoothed_eta := fit.2 }
  if etaAtMost eta_secs REBOOT_PRENOTICE_SECS = true ∧ s1.reboot_announced = false then
    (true, notify { s1 with reboot_announced := true } rebootMsg true)
  else if p ≥ REBOOT_NOTICE_PCT ∧ s1.reboot_announced = false then
    (true, notify { s1 with reboot_announced := true } rebootMsg true)
  else if shouldAnnounce s1.last_announced_pct p = true then
    (false, { notify s1 (progressLine p eta_secs) false with
              spin_idx := s1.spin_idx + 1
              last_announced_pct := some p })
  else (false, s1)

/-- The `except Exception as e` handler of lines 208-215 (also reached by
the caught raise of line 119). -/
def stepFail (s : LoopSt) (emsg : String) : StepRes :=
  let c := s.consecutive_errors + 1
  let s' := { s with consecutive_errors := c }
  if c > MAX_CONSECUTIVE_ERRORS then
    .brk (addWarning s' ("Lost contact with OTA service: " ++ emsg))
  else
    .cont s'

/-- Lines 110-113: refresh the change-tracking fields when the polled
progress or state differs from the last observed ones. -/
def trackChange (s : LoopSt) (now : ℚ) (pct : Option ℚ) (stl : String) : LoopSt :=
  if pct ≠ s.last_progress ∨ some stl ≠ s.last_state then
    { s with last_change_time := now, last_progress := pct, last_state := some stl }
  else s

/-- Lines 115-206: the branch logic of the successful-poll body after the
status has been cached/mapped, the error counter reset and the change
tracker run; `s2` is the loop state at line 115, `err`/`stl`/`pct` the
values of `err_msg`/`st`/`pct`. -/
def stepOkAfter (s2 : LoopSt) (now now2 : ℚ) (err stl : String) (pct : Option ℚ) : StepRes :=
  if err ≠ "" ∧ stl = "failed" then
    -- line 119: the raised server error is caught by the handler at 208
    stepFail (notify s2 ("✖ OTA failed: " ++ err) true) err
  else if stl = "committing" ∧ s2.reboot_announced = false then
    .ret (notify s2 rebootMsg true)
  else if stl = "idle" ∨ stl = "failed" then
    .brk s2
  else
    let step3 :=
      if stl = "installing" then
        match pct with
        | some p => installingStep s2 now p
        | none => (false, s2)
      else (false, s2)
    if step3.1 then .ret step3.2
    else
      if now2 - step3.2.last_change_time > PROGRESS_IDLE_TIMEOUT then
        .brk (addWarning step3.2 stallWarn)
      else
        -- near-end sleep tightening (lines 202-206) only affects timing,
        -- which is exogenous here
        .cont step3.2

/-- The successful-poll body, lines 98-206. -/
def stepOk (s : LoopSt) (now now2 : ℚ) (st0 : OtaStatus) : StepRes :=
  let comp1 := { map_status s.comp st0 with status := st0 }
  let s1 := { s with comp := comp1, consecutive_errors := 0 }
  let pct := comp1.progress
  let stl := pyLower (comp1.state_.getD "")
  let s2 := trackChange s1 now pct stl
  stepOkAfter s2 now now2 st0.error stl pct

def stepTick (s : LoopSt) (tk : Tick) : StepRes :=
  match tk.result with
  | .error m => stepFail s m
  | .ok st0 => stepOk s tk.time tk.time2 st0

/-- The post-loop messages, lines 221-239. -/
def finalize (s : LoopSt) : LoopSt × Outcome :=
  let st := pyLower (s.comp.state_.getD "")
  let err := s.comp.status.error
  if st = "failed" ∨ err ≠ "" then
    if err ≠ "" then (notify s ("✖ OTA failed: " ++ err) true, .raised err)
    else (notify s "✖ OTA failed (no error message)" true, .raised "OTA failed")
  else if st = "installing" then
    (notify s stillMsg false, .success)
  else
    (notify s doneMsg true, .success)

/-- Run the `while True:` loop on a finite list of poll ticks. -/
def execLoop : LoopSt → List Tick → RunRes
  | s, [] => .outOfInput s
  | s, tk :: rest =>
    match stepTick s tk with
    | .cont s' => execLoop s' rest
    | .brk s' => .done (finalize s').1 (finalize s').2
    | .ret s' => .done s' .success

/-- The loop state right after `ota_start()` and the starting notice
(lines 74-93); `t0` is the event-loop time at line 81. -/
def initLoop (c : OtaState) (t0 : ℚ) : LoopSt :=
  { comp := c
    last_progress := none
    last_announced_pct := none
    last_state := none
    last_change_time := t0
    consecutive_errors := 0
    reboot_announced := false
    progress_history := []
    spin_idx := 0
    smoothed_eta := none
    notifs := [(startMsg, false)] }

/-- `update()` on a finite sequence of poll ticks. -/
def update (c : OtaState) (t0 : ℚ) (ticks : List Tick) : RunRes :=
  execLoop (initLoop c t0) ticks

/-- Number of notifications flagged `is_complete=True`. -/
def countFinals (l : List (String × Bool)) : ℕ :=
  l.countP (fun q => q.2)

/-- Number of reboot-notice emissions. -/
def countReboot (l : List (String × Bool)) : ℕ :=
  l.countP (fun q => decide (q.1 = rebootMsg))

/-! ### Helper lemmas about the small state transformers -/

theorem countP_concat (p : (String × Bool) → Bool) (l : List (String × Bool))
    (a : String × Bool) :
    List.countP p (l ++ [a]) = List.countP p l + (if p a then 1 else 0) := by
  simp [List.countP_append, List.countP_cons, List.countP_nil]

theorem countFinals_concat (l : List (String × Bool)) (m : String) (b : Bool) :
    countFinals (l ++ [(m, b)]) = countFinals l + (if b then 1 else 0) := by
  simp [countFinals, List.countP_append, List.countP_cons, List.countP_nil]

theorem countReboot_concat (l : List (String × Bool)) (m : String) (b : Bool) :
    countReboot (l ++ [(m, b)]) = countReboot l + (if m = rebootMsg then 1 else 0) := by
  simp [countReboot, List.countP_append, List.countP_cons, List.countP_nil]

theorem fail_msg_ne_reboot (t : String) : "✖ OTA failed: " ++ t ≠ rebootMsg := by
  obtain ⟨td⟩ := t
  intro h
  have h1 : (("✖ OTA failed: " ++ String.mk td)).data.head? = some '✖' := rfl
  rw [h] at h1
  exact absurd h1 (by decide)

theorem inst_msg_ne_reboot (t : String) : "Installing " ++ t ≠ rebootMsg := by
  obtain ⟨td⟩ := t
  intro h
  have h1 : (("Installing " ++ String.mk td)).data.head? = some 'I' := rfl
  rw [h] at h1
  exact absurd h1 (by decide)

@[simp] theorem notify_notifs (s : LoopSt) (m : String) (b : Bool) :
    (notify s m b).notifs = s.notifs ++ [(m, b)] := rfl
@[simp] theorem notify_comp (s : LoopSt) (m : String) (b : Bool) :
    (notify s m b).comp = s.comp := rfl
@[simp] theorem notify_cerr (s : LoopSt) (m : String) (b : Bool) :
    (notify s m b).consecutive_errors = s.consecutive_errors := rfl
@[simp] theorem notify_lct (s : LoopSt) (m : String) (b : Bool) :
    (notify s m b).last_change_time = s.last_change_time := rfl

@[simp] theorem addWarning_notifs (s : LoopSt) (w : String) :
    (addWarning s w).notifs = s.notifs := rfl
@[simp] theorem addWarning_warnings (s : LoopSt) (w : String) :
    (addWarning s w).comp.warnings = s.comp.warnings ++ [w] := rfl
@[simp] theorem addWarning_status (s : LoopSt) (w : String) :
    (addWarning s w).comp.status = s.comp.status := rfl
@[simp] theorem addWarning_state_ (s : LoopSt) (w : String) :
    (addWarning s w).comp.state_ = s.comp.state_ := rfl
@[simp] theorem addWarning_cerr (s : LoopSt) (w : String) :
    (addWarning s w).consecutive_errors = s.consecutive_errors := rfl

@[simp] theorem trackChange_notifs (s : LoopSt) (now : ℚ) (pct : Option ℚ) (stl : String) :
    (trackChange s now pct stl).notifs = s.notifs := by
  unfold trackChange; split <;> rfl
@[simp] theorem trackChange_comp (s : LoopSt) (now : ℚ) (pct : Option ℚ) (stl : String) :
    (trackChange s now pct stl).comp = s.comp := by
  unfold trackChange; split <;> rfl
@[simp] theorem trackChange_cerr (s : LoopSt) (now : ℚ) (pct : Option ℚ) (stl : String) :
    (trackChange s now pct stl).consecutive_errors = s.consecutive_errors := by
  unfold trackChange; split <;> rfl
@[simp] theorem trackChange_reboot (s : LoopSt) (now : ℚ) (pct : Option ℚ) (stl : String) :
    (trackChange s now pct stl).reboot_announced = s.reboot_announced := by
  unfold trackChange; split <;> rfl
@[simp] theorem trackChange_hist (s : LoopSt) (now : ℚ) (pct : Option ℚ) (stl : String) :
    (trackChange s now pct stl).progress_history = s.progress_history := by
  unfold trackChange; split <;> rfl
@[simp] theorem trackChange_eta (s : LoopSt) (now : ℚ) (pct : Option ℚ) (stl : String) :
    (trackChange s now pct stl).smoothed_eta = s.smoothed_eta := by
  unfold trackChange; split <;> rfl
@[simp] theorem trackChange_lap (s : LoopSt) (now : ℚ) (pct : Option ℚ) (stl : String) :
    (trackChange s now pct stl).last_announced_pct = s.last_announced_pct := by
  unfold trackChange; split <;> rfl

/-- When the polled progress and state equal the last observed ones, the
change tracker leaves the state untouched. -/
theorem trackChange_unchanged (s : LoopSt) (now : ℚ) (pct : Option ℚ) (stl : String)
    (h1 : pct = s.last_progress) (h2 : some stl = s.last_state) :
    trackChange s now pct stl = s := by
  unfold trackChange
  rw [if_neg]
  simp [h1, h2]

/-- `finalize` never touches the warning list. -/
theorem finalize_warnings (s : LoopSt) :
    (finalize s).1.comp.warnings = s.comp.warnings := by
  unfold finalize
  dsimp only
  split <;> [skip; split] <;> first | rfl | (split <;> rfl)

/-- `finalize` emits exactly one notification: a final one, or the
non-final still-in-progress notice (in which case the outcome is success). -/
theorem finalize_spec (s : LoopSt) :
    (∃ m, (finalize s).1.notifs = s.notifs ++ [(m, true)]) ∨
      ((finalize s).1.notifs = s.notifs ++ [(stillMsg, false)] ∧
        (finalize s).2 = .success) := by
  unfold finalize
  dsimp only
  split
  · split
    · exact .inl ⟨_, rfl⟩
    · exact .inl ⟨_, rfl⟩
  · split
    · exact .inr ⟨rfl, rfl⟩
    · exact .inl ⟨_, rfl⟩

@[simp] theorem map_status_state_ (c : OtaState) (s0 : OtaStatus) :
    (map_status c s0).state_ = some (pyLower s0.state) := rfl
@[simp] theorem map_status_progress (c : OtaState) (s0 : OtaStatus) :
    (map_status c s0).progress = s0.progress := rfl
@[simp] theorem map_status_warnings (c : OtaState) (s0 : OtaStatus) :
    (map_status c s0).warnings = c.warnings := rfl
@[simp] theorem map_status_anomalies (c : OtaState) (s0 : OtaStatus) :
    (map_status c s0).anomalies = c.anomalies := rfl

theorem stepFail_cont (s : LoopSt) (m : String)
    (h : s.consecutive_errors + 1 ≤ MAX_CONSECUTIVE_ERRORS) :
    stepFail s m = .cont { s with consecutive_errors := s.consecutive_errors + 1 } := by
  unfold stepFail
  dsimp only
  rw [if_neg]
  omega

theorem stepFail_classify (s : LoopSt) (m : String) :
    (stepFail s m = .cont { s with consecutive_errors := s.consecutive_errors + 1 } ∧
      s.consecutive_errors + 1 ≤ MAX_CONSECUTIVE_ERRORS) ∨
    (stepFail s m = .brk (addWarning { s with consecutive_errors := s.consecutive_errors + 1 }
        ("Lost contact with OTA service: " ++ m)) ∧
      s.consecutive_errors + 1 > MAX_CONSECUTIVE_ERRORS) := by
  unfold stepFail
  dsimp only
  split
  · exact .inr ⟨rfl, by omega⟩
  · exact .inl ⟨rfl, by omega⟩

@[simp] theorem installingStep_comp (s : LoopSt) (now p : ℚ) :
    (installingStep s now p).2.comp = s.comp := by
  unfold installingStep
  dsimp only
  split_ifs <;> rfl

@[simp] theorem installingStep_cerr (s : LoopSt) (now p : ℚ) :
    (installingStep s now p).2.consecutive_errors = s.consecutive_errors := by
  unfold installingStep
  dsimp only
  split_ifs <;> rfl

@[simp] theorem installingStep_lct (s : LoopSt) (now p : ℚ) :
    (installingStep s now p).2.last_change_time = s.last_change_time := by
  unfold installingStep
  dsimp only
  split_ifs <;> rfl

/-- What the installing branch can emit: a single reboot notice together
with an early return, or at most one non-final progress line. -/
theorem installingStep_spec (s : LoopSt) (now p : ℚ) :
    ((installingStep s now p).1 = true ∧
      (installingStep s now p).2.notifs = s.notifs ++ [(rebootMsg, true)]) ∨
    ((installingStep s now p).1 = false ∧
      ((installingStep s now p).2.notifs = s.notifs ∨
        ∃ t, (installingStep s now p).2.notifs = s.notifs ++ [("Installing " ++ t, false)])) := by
  unfold installingStep
  dsimp only
  split_ifs
  · exact .inl ⟨rfl, rfl⟩
  · exact .inl ⟨rfl, rfl⟩
  · exact .inr ⟨rfl, .inr ⟨_, rfl⟩⟩
  · exact .inr ⟨rfl, .inl rfl⟩

/-- When every sample in the windowed history carries the same percent, the
regression gate rejects the fit (total movement is zero), so no ETA is
produced and the smoothed estimate is untouched. -/
theorem etaFit_none (h2 : List (ℚ × ℚ)) (p : ℚ) (sm : Option ℚ)
    (h : ∀ q ∈ h2, q.2 = p) : etaFit h2 p sm = (none, sm) := by
  unfold etaFit
  dsimp only
  split
  · next hlen =>
    have hne : h2 ≠ [] := by
      intro he
      rw [he] at hlen
      simp at hlen
    have hhead : (h2.head?.getD (0, 0)).2 = p := by
      rw [List.head?_eq_head hne]
      exact h _ (List.head_mem hne)
    have hlast : (h2.getLast?.getD (0, 0)).2 = p := by
      rw [List.getLast?_eq_getLast h2 hne]
      exact h _ (List.getLast_mem hne)
    split
    · rw [if_neg]
      intro hc
      rw [hlast, hhead] at hc
      have : (0 : ℚ) ≥ ETA_MIN_DPCT := by
        simpa using hc.2
      rw [ETA_MIN_DPCT] at this
      norm_num at this
    · rfl
  · rfl

/-- Classification of the branch logic for an arbitrary loop state with a
freshly reset error counter: either the failed-with-error notice fires
(and the raise is swallowed into a retry, leaving the error counter at 1),
or the body returns with exactly one reboot notice, or it breaks/continues
having emitted at most one non-final progress line, possibly recording the
stall warning. -/
theorem stepOkAfter_classify (s2 : LoopSt) (now now2 : ℚ) (err stl : String)
    (pct : Option ℚ) (hc : s2.consecutive_errors = 0) :
    (∃ s₁, stepOkAfter s2 now now2 err stl pct = .cont s₁ ∧
        s₁.notifs = s2.notifs ++ [("✖ OTA failed: " ++ err, true)] ∧
        s₁.comp.warnings = s2.comp.warnings ∧
        s₁.consecutive_errors = 1 ∧
        err ≠ "" ∧ stl = "failed") ∨
    (∃ s₁, stepOkAfter s2 now now2 err stl pct = .ret s₁ ∧
        s₁.notifs = s2.notifs ++ [(rebootMsg, true)] ∧
        s₁.comp.warnings = s2.comp.warnings ∧
        s₁.consecutive_errors = 0) ∨
    (∃ s₁, stepOkAfter s2 now now2 err stl pct = .brk s₁ ∧
        (s₁.notifs = s2.notifs ∨ ∃ t, s₁.notifs = s2.notifs ++ [("Installing " ++ t, false)]) ∧
        (s₁.comp.warnings = s2.comp.warnings ∨
          s₁.comp.warnings = s2.comp.warnings ++ [stallWarn]) ∧
        s₁.consecutive_errors = 0) ∨
    (∃ s₁, stepOkAfter s2 now now2 err stl pct = .cont s₁ ∧
        (s₁.notifs = s2.notifs ∨ ∃ t, s₁.notifs = s2.notifs ++ [("Installing " ++ t, false)]) ∧
        s₁.comp.warnings = s2.comp.warnings ∧
        s₁.consecutive_errors = 0) := by
  unfold stepOkAfter
  dsimp only
  by_cases hb1 : err ≠ "" ∧ stl = "failed"
  · rw [if_pos hb1]
    exact .inl ⟨_, stepFail_cont _ _ (by simp [hc, MAX_CONSECUTIVE_ERRORS]), by simp,
      by simp, by simp [hc], hb1.1, hb1.2⟩
  · rw [if_neg hb1]
    by_cases hb2 : stl = "committing" ∧ s2.reboot_announced = false
    · rw [if_pos hb2]
      exact .inr (.inl ⟨_, rfl, by simp, by simp, by simp [hc]⟩)
    · rw [if_neg hb2]
      by_cases hb3 : stl = "idle" ∨ stl = "failed"
      · rw [if_pos hb3]
        exact .inr (.inr (.inl ⟨_, rfl, .inl rfl, .inl rfl, hc⟩))
      · rw [if_neg hb3]
        by_cases hsti : stl = "installing"
        · rw [if_pos hsti]
          cases hp : pct with
          | none =>
            dsimp only
            rw [if_neg (by simp)]
            by_cases hstall : now2 - s2.last_change_time > PROGRESS_IDLE_TIMEOUT
            · rw [if_pos hstall]
              exact .inr (.inr (.inl ⟨_, rfl, .inl (by simp), .inr (by simp), by simp [hc]⟩))
            · rw [if_neg hstall]
              exact .inr (.inr (.inr ⟨_, rfl, .inl rfl, rfl, hc⟩))
          | some p =>
            dsimp only
            rcases installingStep_spec s2 now p with ⟨hf, hn⟩ | ⟨hf, hn⟩
            · rw [hf, if_pos rfl]
              exact .inr (.inl ⟨_, rfl, hn, by simp, by simp [hc]⟩)
            · rw [hf]
              rw [if_neg (by simp)]
              by_cases hstall :
                  now2 - (installingStep s2 now p).2.last_change_time > PROGRESS_IDLE_TIMEOUT
              · rw [if_pos hstall]
                refine .inr (.inr (.inl ⟨_, rfl, ?_, .inr (by simp), by simp [hc]⟩))
                simpa using hn
              · rw [if_neg hstall]
                exact .inr (.inr (.inr ⟨_, rfl, hn, by simp, by simp [hc]⟩))
        · rw [if_neg hsti]
          dsimp only
          rw [if_neg (by simp)]
          by_cases hstall : now2 - s2.last_change_time > PROGRESS_IDLE_TIMEOUT
          · rw [if_pos hstall]
            exact .inr (.inr (.inl ⟨_, rfl, .inl (by simp), .inr (by simp), by simp [hc]⟩))
          · rw [if_neg hstall]
            exact .inr (.inr (.inr ⟨_, rfl, .inl rfl, rfl, hc⟩))

/-- `stepOk` is the branch logic applied after caching/mapping the status,
resetting the error counter and running the change tracker. -/
theorem stepOk_eq (s : LoopSt) (now now2 : ℚ) (st0 : OtaStatus) :
    stepOk s now now2 st0 =
      stepOkAfter
        (trackChange { s with comp := { map_status s.comp st0 with status := st0 }, consecutive_errors := 0 } now st0.progress (pyLower (pyLower st0.state)))
        now now2 st0.error (pyLower (pyLower st0.state)) st0.progress := rfl

/-- Classification of one successful-poll body iteration, relative to the
incoming loop state. -/
theorem stepOk_classify (s : LoopSt) (now now2 : ℚ) (st0 : OtaStatus) :
    (∃ s₁, stepOk s now now2 st0 = .cont s₁ ∧
        s₁.notifs = s.notifs ++ [("✖ OTA failed: " ++ st0.error, true)] ∧
        s₁.comp.warnings = s.comp.warnings ∧
        s₁.consecutive_errors = 1 ∧
        st0.error ≠ "" ∧ pyLower (pyLower st0.state) = "failed") ∨
    (∃ s₁, stepOk s now now2 st0 = .ret s₁ ∧
        s₁.notifs = s.notifs ++ [(rebootMsg, true)] ∧
        s₁.comp.warnings = s.comp.warnings ∧
        s₁.consecutive_errors = 0) ∨
    (∃ s₁, stepOk s now now2 st0 = .brk s₁ ∧
        (s₁.notifs = s.notifs ∨ ∃ t, s₁.notifs = s.notifs ++ [("Installing " ++ t, false)]) ∧
        (s₁.comp.warnings = s.comp.warnings ∨
          s₁.comp.warnings = s.comp.warnings ++ [stallWarn]) ∧
        s₁.consecutive_errors = 0) ∨
    (∃ s₁, stepOk s now now2 st0 = .cont s₁ ∧
        (s₁.notifs = s.notifs ∨ ∃ t, s₁.notifs = s.notifs ++ [("Installing " ++ t, false)]) ∧
        s₁.comp.warnings = s.comp.warnings ∧
        s₁.consecutive_errors = 0) := by
  have h := stepOkAfter_classify
    (trackChange { s with comp := { map_status s.comp st0 with status := st0 }, consecutive_errors := 0 } now st0.progress (pyLower (pyLower st0.state)))
    now now2 st0.error (pyLower (pyLower st0.state)) st0.progress (by simp [trackChange_cerr])
  rw [← stepOk_eq] at h
  simpa only [trackChange_notifs, trackChange_comp, map_status_warnings] using h

/-- The messages `finalize` can emit are never the reboot notice. -/
theorem finalize_countReboot (s : LoopSt) :
    countReboot (finalize s).1.notifs = countReboot s.notifs := by
  unfold finalize
  dsimp only
  split
  · split
    · simp [countReboot_concat, fail_msg_ne_reboot]
    · simp only [notify_notifs, countReboot_concat]
      rw [if_neg (by decide)]
      omega
  · split
    · simp only [notify_notifs, countReboot_concat]
      rw [if_neg (by decide)]
      omega
    · simp only [notify_notifs, countReboot_concat]
      rw [if_neg (by decide)]
      omega

/-! ### Counting lemmas over whole runs -/

theorem stepTick_countReboot (s : LoopSt) (tk : Tick) :
    (∀ s₁, stepTick s tk = .cont s₁ → countReboot s₁.notifs = countReboot s.notifs) ∧
    (∀ s₁, stepTick s tk = .brk s₁ → countReboot s₁.notifs = countReboot s.notifs) ∧
    (∀ s₁, stepTick s tk = .ret s₁ → countReboot s₁.notifs = countReboot s.notifs + 1) := by
  cases hr : tk.result with
  | error m =>
    have he : stepTick s tk = stepFail s m := by simp [stepTick, hr]
    rcases stepFail_classify s m with ⟨hf, _⟩ | ⟨hf, _⟩ <;> rw [hf] at he
    · refine ⟨?_, ?_, ?_⟩ <;> intro s₁ h <;> rw [he] at h <;> cases h <;> rfl
    · refine ⟨?_, ?_, ?_⟩ <;> intro s₁ h <;> rw [he] at h <;> cases h <;> rfl
  | ok st0 =>
    have he : stepTick s tk = stepOk s tk.time tk.time2 st0 := by simp [stepTick, hr]
    rcases stepOk_classify s tk.time tk.time2 st0 with
      ⟨s₁, hq, hn, _, _, _, _⟩ | ⟨s₁, hq, hn, _, _⟩ | ⟨s₁, hq, hn, _, _⟩ | ⟨s₁, hq, hn, _, _⟩ <;>
      rw [hq] at he
    · refine ⟨?_, ?_, ?_⟩ <;> intro s₂ h <;> rw [he] at h <;> cases h
      rw [hn, countReboot_concat, if_neg (fail_msg_ne_reboot st0.error)]
      omega
    · refine ⟨?_, ?_, ?_⟩ <;> intro s₂ h <;> rw [he] at h <;> cases h
      rw [hn, countReboot_concat, if_pos rfl]
    · refine ⟨?_, ?_, ?_⟩ <;> intro s₂ h <;> rw [he] at h <;> cases h
      rcases hn with hn | ⟨u, hn⟩
      · rw [hn]
      · rw [hn, countReboot_concat, if_neg (inst_msg_ne_reboot u)]
        omega
    · refine ⟨?_, ?_, ?_⟩ <;> intro s₂ h <;> rw [he] at h <;> cases h
      rcases hn with hn | ⟨u, hn⟩
      · rw [hn]
      · rw [hn, countReboot_concat, if_neg (inst_msg_ne_reboot u)]
        omega

theorem execLoop_countReboot (ticks : List Tick) : ∀ s : LoopSt,
    countReboot (execLoop s ticks).state.notifs ≤ countReboot s.notifs + 1 ∧
    ((execLoop s ticks).isDone = false →
      countReboot (execLoop s ticks).state.notifs = countReboot s.notifs) := by
  induction ticks with
  | nil =>
    intro s
    refine ⟨?_, fun _ => rfl⟩
    simp [execLoop, RunRes.state]
  | cons tk rest ih =>
    intro s
    obtain ⟨hcont, hbrk, hret⟩ := stepTick_countReboot s tk
    cases hst : stepTick s tk with
    | cont s₁ =>
      have hq : execLoop s (tk :: rest) = execLoop s₁ rest := by
        simp [execLoop, hst]
      rw [hq]
      obtain ⟨ih1, ih2⟩ := ih s₁
      rw [hcont s₁ hst] at ih1 ih2
      exact ⟨ih1, ih2⟩
    | brk s₁ =>
      have hq : execLoop s (tk :: rest) = .done (finalize s₁).1 (finalize s₁).2 := by
        simp [execLoop, hst]
      rw [hq]
      refine ⟨?_, by simp [RunRes.isDone]⟩
      simp only [RunRes.state, finalize_countReboot, hbrk s₁ hst]
      omega
    | ret s₁ =>
      have hq : execLoop s (tk :: rest) = .done s₁ .success := by
        simp [execLoop, hst]
      rw [hq]
      refine ⟨?_, by simp [RunRes.isDone]⟩
      simp only [RunRes.state, hret s₁ hst]
      omega

/-- A poll tick whose snapshot does not report phase failed together with a
non-empty error text (the in-loop branch of line 117). -/
def benignTick (tk : Tick) : Prop :=
  ∀ st0, tk.result = .ok st0 → st0.error ≠ "" → pyLower (pyLower st0.state) ≠ "failed"

theorem stepTick_countFinals (s : LoopSt) (tk : Tick) (hb : benignTick tk) :
    (∀ s₁, stepTick s tk = .cont s₁ → countFinals s₁.notifs = countFinals s.notifs) ∧
    (∀ s₁, stepTick s tk = .brk s₁ → countFinals s₁.notifs = countFinals s.notifs) ∧
    (∀ s₁, stepTick s tk = .ret s₁ → countFinals s₁.notifs = countFinals s.notifs + 1) := by
  cases hr : tk.result with
  | error m =>
    have he : stepTick s tk = stepFail s m := by simp [stepTick, hr]
    rcases stepFail_classify s m with ⟨hf, _⟩ | ⟨hf, _⟩ <;> rw [hf] at he
    · refine ⟨?_, ?_, ?_⟩ <;> intro s₁ h <;> rw [he] at h <;> cases h <;> rfl
    · refine ⟨?_, ?_, ?_⟩ <;> intro s₁ h <;> rw [he] at h <;> cases h <;> rfl
  | ok st0 =>
    have he : stepTick s tk = stepOk s tk.time tk.time2 st0 := by simp [stepTick, hr]
    rcases stepOk_classify s tk.time tk.time2 st0 with
      ⟨s₁, hq, hn, _, _, herr, hfl⟩ | ⟨s₁, hq, hn, _, _⟩ | ⟨s₁, hq, hn, _, _⟩ |
        ⟨s₁, hq, hn, _, _⟩ <;> rw [hq] at he
    · exact absurd hfl (hb st0 hr herr)
    · refine ⟨?_, ?_, ?_⟩ <;> intro s₂ h <;> rw [he] at h <;> cases h
      rw [hn, countFinals_concat, if_pos rfl]
    · refine ⟨?_, ?_, ?_⟩ <;> intro s₂ h <;> rw [he] at h <;> cases h
      rcases hn with hn | ⟨u, hn⟩
      · rw [hn]
      · rw [hn, countFinals_concat, if_neg (by simp)]
        omega
    · refine ⟨?_, ?_, ?_⟩ <;> intro s₂ h <;> rw [he] at h <;> cases h
      rcases hn with hn | ⟨u, hn⟩
      · rw [hn]
      · rw [hn, countFinals_concat, if_neg (by simp)]
        omega

theorem execLoop_countFinals (ticks : List Tick) : ∀ s : LoopSt,
    (∀ tk ∈ ticks, benignTick tk) → countFinals s.notifs = 0 →
    ((execLoop s ticks).isDone = false →
      countFinals (execLoop s ticks).state.notifs = 0) ∧
    (∀ s' o, execLoop s ticks = .done s' o →
      countFinals s'.notifs = 1 ∨
        (countFinals s'.notifs = 0 ∧ o = .success ∧
          s'.notifs.getLast? = some (stillMsg, false))) := by
  induction ticks with
  | nil =>
    intro s _ h0
    refine ⟨fun _ => h0, ?_⟩
    intro s' o h
    cases h
  | cons tk rest ih =>
    intro s hben h0
    obtain ⟨hcont, hbrk, hret⟩ := stepTick_countFinals s tk (hben tk (by simp))
    cases hst : stepTick s tk with
    | cont s₁ =>
      have hq : execLoop s (tk :: rest) = execLoop s₁ rest := by
        simp [execLoop, hst]
      rw [hq]
      exact ih s₁ (fun u hu => hben u (by simp [hu])) (by rw [hcont s₁ hst, h0])
    | brk s₁ =>
      have h1 : countFinals s₁.notifs = 0 := by rw [hbrk s₁ hst, h0]
      have hq : execLoop s (tk :: rest) = .done (finalize s₁).1 (finalize s₁).2 := by
        simp [execLoop, hst]
      rw [hq]
      refine ⟨by simp [RunRes.isDone], ?_⟩
      intro s' o h
      injection h with h' ho
      rcases finalize_spec s₁ with ⟨m, hm⟩ | ⟨hm, hsucc⟩
      · refine .inl ?_
        rw [← h', hm, countFinals_concat, if_pos rfl, h1]
      · refine .inr ⟨?_, ?_, ?_⟩
        · rw [← h', hm, countFinals_concat, if_neg (by simp), h1]
        · rw [← ho, hsucc]
        · rw [← h', hm, List.getLast?_concat]
    | ret s₁ =>
      have hq : execLoop s (tk :: rest) = .done s₁ .success := by
        simp [execLoop, hst]
      rw [hq]
      refine ⟨by simp [RunRes.isDone], ?_⟩
      intro s' o h
      injection h with h' ho
      refine .inl ?_
      rw [← h', hret s₁ hst, h0]

/-! ### Branch-level execution lemmas -/

/-- The loop state at line 115 of one successful-poll iteration: status
cached and mapped, error counter reset, change tracker applied. -/
def postPoll (s : LoopSt) (now : ℚ) (st0 : OtaStatus) : LoopSt :=
  trackChange { s with comp := { map_status s.comp st0 with status := st0 }, consecutive_errors := 0 } now st0.progress (pyLower (pyLower st0.state))

theorem stepOk_eq2 (s : LoopSt) (now now2 : ℚ) (st0 : OtaStatus) :
    stepOk s now now2 st0 =
      stepOkAfter (postPoll s now st0) now now2 st0.error
        (pyLower (pyLower st0.state)) st0.progress := rfl

@[simp] theorem postPoll_notifs (s : LoopSt) (now : ℚ) (st0 : OtaStatus) :
    (postPoll s now st0).notifs = s.notifs := by
  simp [postPoll]
@[simp] theorem postPoll_warnings (s : LoopSt) (now : ℚ) (st0 : OtaStatus) :
    (postPoll s now st0).comp.warnings = s.comp.warnings := by
  simp [postPoll]
@[simp] theorem postPoll_status (s : LoopSt) (now : ℚ) (st0 : OtaStatus) :
    (postPoll s now st0).comp.status = st0 := by
  simp [postPoll]
@[simp] theorem postPoll_state_ (s : LoopSt) (now : ℚ) (st0 : OtaStatus) :
    (postPoll s now st0).comp.state_ = some (pyLower st0.state) := by
  simp [postPoll]
@[simp] theorem postPoll_cerr (s : LoopSt) (now : ℚ) (st0 : OtaStatus) :
    (postPoll s now st0).consecutive_errors = 0 := by
  simp [postPoll, trackChange_cerr]
@[simp] theorem postPoll_hist (s : LoopSt) (now : ℚ) (st0 : OtaStatus) :
    (postPoll s now st0).progress_history = s.progress_history := by
  simp [postPoll]

/-- When neither progress nor state changed, `postPoll` only caches and
maps the status and resets the error counter. -/
theorem postPoll_unchanged (s : LoopSt) (now : ℚ) (st0 : OtaStatus)
    (h1 : st0.progress = s.last_progress)
    (h2 : some (pyLower (pyLower st0.state)) = s.last_state) :
    postPoll s now st0 =
      { s with comp := { map_status s.comp st0 with status := st0 }, consecutive_errors := 0 } := by
  unfold postPoll
  exact trackChange_unchanged _ _ _ _ h1 h2

/-- An idle (or failed) snapshot with no error text reaches the terminal
break of line 127. -/
theorem stepOkAfter_idle (s2 : LoopSt) (now now2 : ℚ) (pct : Option ℚ) :
    stepOkAfter s2 now now2 "" "idle" pct = .brk s2 := by
  unfold stepOkAfter
  rw [if_neg (by simp), if_neg (by simp), if_pos (.inl rfl)]

theorem finalize_else (s : LoopSt)
    (h1 : pyLower (s.comp.state_.getD "") ≠ "failed")
    (h2 : s.comp.status.error = "")
    (h3 : pyLower (s.comp.state_.getD "") ≠ "installing") :
    finalize s = (notify s doneMsg true, .success) := by
  unfold finalize
  dsimp only
  rw [if_neg (by simp [h1, h2]), if_neg h3]

/-- When the cached status is not failed and carries no error text, the
post-loop messages report success, whatever the phase. -/
theorem finalize_success (s : LoopSt)
    (h1 : pyLower (s.comp.state_.getD "") ≠ "failed")
    (h2 : s.comp.status.error = "") :
    (finalize s).2 = .success ∧ (finalize s).1.comp.warnings = s.comp.warnings := by
  unfold finalize
  dsimp only
  rw [if_neg (by simp [h1, h2])]
  split_ifs <;> exact ⟨rfl, by simp⟩

/-- With a flat windowed history the installing branch produces no ETA and
does not return early (provided the percent is below the threshold). -/
theorem installingStep_no_eta (s : LoopSt) (now p : ℚ)
    (hho : ∀ q ∈ s.progress_history, q.2 = p) (hp : p < REBOOT_NOTICE_PCT) :
    (installingStep s now p).1 = false := by
  unfold installingStep
  dsimp only
  rw [etaFit_none _ _ _ ?hall]
  case hall =>
    intro q hq
    rcases List.mem_filter.1 hq with ⟨hq1, _⟩
    rcases List.mem_append.1 hq1 with hq2 | hq2
    · rcases List.mem_filter.1 hq2 with ⟨hq3, _⟩
      rcases List.mem_append.1 hq3 with hq4 | hq4
      · exact hho q hq4
      · simp only [List.mem_singleton] at hq4
        rw [hq4]
    · simp only [List.mem_singleton] at hq2
      rw [hq2]
  dsimp only
  rw [if_neg (by simp [etaAtMost]), if_neg (by simp [not_le.2 hp])]
  split_ifs <;> rfl

theorem stepFail_brk (s : LoopSt) (m : String)
    (h : s.consecutive_errors + 1 > MAX_CONSECUTIVE_ERRORS) :
    stepFail s m = .brk (addWarning { s with consecutive_errors := s.consecutive_errors + 1 }
      ("Lost contact with OTA service: " ++ m)) := by
  unfold stepFail
  dsimp only
  rw [if_pos h]

theorem execLoop_fail_cont (s : LoopSt) (tk : Tick) (l : List Tick) (m : String)
    (hm : tk.result = .error m) (h : s.consecutive_errors + 1 ≤ MAX_CONSECUTIVE_ERRORS) :
    execLoop s (tk :: l) =
      execLoop { s with consecutive_errors := s.consecutive_errors + 1 } l := by
  have h1 : stepTick s tk = .cont { s with consecutive_errors := s.consecutive_errors + 1 } := by
    simp [stepTick, hm, stepFail_cont s m h]
  simp [execLoop, h1]

theorem execLoop_fail_brk (s : LoopSt) (tk : Tick) (l : List Tick) (m : String)
    (hm : tk.result = .error m) (h : s.consecutive_errors + 1 > MAX_CONSECUTIVE_ERRORS) :
    execLoop s (tk :: l) =
      .done (finalize (addWarning { s with consecutive_errors := s.consecutive_errors + 1 }
          ("Lost contact with OTA service: " ++ m))).1
        (finalize (addWarning { s with consecutive_errors := s.consecutive_errors + 1 }
          ("Lost contact with OTA service: " ++ m))).2 := by
  have h1 : stepTick s tk = .brk (addWarning { s with consecutive_errors := s.consecutive_errors + 1 }
      ("Lost contact with OTA service: " ++ m)) := by
    simp [stepTick, hm, stepFail_brk s m h]
  simp [execLoop, h1]

/-! ### Concrete inputs used by the claims -/

/-- A snapshot reporting phase failed with error text `"boom"`. -/
def failedBoomStatus : OtaStatus := { state := "failed", error := "boom" }

/-- A poll that yields `failedBoomStatus`. -/
def failedBoomTick : Tick := ⟨0, 0, .ok failedBoomStatus⟩

/-- An installing snapshot at time `t` with percent `p`. -/
def instTick (t p : ℚ) : Tick := ⟨t, t, .ok { state := "installing", progress := some p }⟩

/-- An idle snapshot with no error text. -/
def idleStatus : OtaStatus := { state := "idle" }

def idleTick : Tick := ⟨0, 0, .ok idleStatus⟩

theorem stepFail_one (s : LoopSt) (m : String) (h : s.consecutive_errors = 0) :
    stepFail s m = .cont { s with consecutive_errors := 1 } := by
  have h2 := stepFail_cont s m (by rw [h]; decide)
  rw [h] at h2
  simpa using h2

/-- A failed-with-error poll always lands in the caught-raise retry path:
the loop continues, having emitted one more final failure notice. -/
theorem stepTick_failedBoom (s : LoopSt) :
    ∃ s₁, stepTick s failedBoomTick = .cont s₁ ∧
      s₁.notifs = s.notifs ++ [("✖ OTA failed: boom", true)] := by
  have he : stepTick s failedBoomTick =
      stepOkAfter (postPoll s 0 failedBoomStatus) 0 0 "boom" "failed" none := rfl
  rw [he]
  unfold stepOkAfter
  dsimp only
  rw [if_pos (show ("boom" : String) ≠ "" ∧ ("failed" : String) = "failed" from ⟨by decide, rfl⟩)]
  have h3 := stepFail_one
    (notify (postPoll s 0 failedBoomStatus) ("✖ OTA failed: " ++ "boom") true) "boom" (by simp)
  rw [h3]
  refine ⟨_, rfl, ?_⟩
  have hs : ("✖ OTA failed: " ++ "boom" : String) = "✖ OTA failed: boom" := rfl
  simp [hs]

theorem execLoop_failedBoom (s : LoopSt) (n : ℕ) :
    (execLoop s (List.replicate n failedBoomTick)).isDone = false ∧
    countFinals (execLoop s (List.replicate n failedBoomTick)).state.notifs
      = countFinals s.notifs + n := by
  induction n generalizing s with
  | zero => exact ⟨rfl, by simp [execLoop, RunRes.state]⟩
  | succ k ih =>
    rw [List.replicate_succ]
    obtain ⟨s₁, hst, hn⟩ := stepTick_failedBoom s
    have hq : execLoop s (failedBoomTick :: List.replicate k failedBoomTick)
        = execLoop s₁ (List.replicate k failedBoomTick) := by
      simp [execLoop, hst]
    rw [hq]
    obtain ⟨ih1, ih2⟩ := ih s₁
    refine ⟨ih1, ?_⟩
    rw [ih2, hn, countFinals_concat, if_pos rfl]
    omega

/-! ### The claims -/

/-- Claim C1 (code bug): when every poll reports phase failed with the
non-empty error text `"boom"`, `update()` does not fail with that message:
the raise of line 119 is caught by the loop's own handler at line 208
(whose counter was just reset at line 101), so the invocation never
terminates — and it re-emits the final failure notice on every tick. -/
theorem ota_c1_failed_error_never_surfaces (c : OtaState) (t0 : ℚ) (n : ℕ) :
    (update c t0 (List.replicate n failedBoomTick)).isDone = false ∧
    countFinals (update c t0 (List.replicate n failedBoomTick)).state.notifs = n := by
  obtain ⟨h1, h2⟩ := execLoop_failedBoom (initLoop c t0) n
  refine ⟨h1, ?_⟩
  rw [show update c t0 (List.replicate n failedBoomTick)
      = execLoop (initLoop c t0) (List.replicate n failedBoomTick) from rfl, h2]
  have h0 : countFinals (initLoop c t0).notifs = 0 := rfl
  omega

/-- Claim C4 (confirmed): within one `update()` invocation the reboot
notice is emitted at most once, on every input sequence. -/
theorem ota_c4_reboot_notice_at_most_once (c : OtaState) (t0 : ℚ) (ticks : List Tick) :
    countReboot (update c t0 ticks).state.notifs ≤ 1 := by
  have h := (execLoop_countReboot ticks (initLoop c t0)).1
  have h0 : countReboot (initLoop c t0).notifs = 0 := rfl
  rw [h0] at h
  simpa [update] using h

/-- Claim C5 (code bug): two distinct installing observations (t=0 at 10%,
t=1 at 20%) already produce an ETA estimate (8 s), because each observation
is appended twice (lines 133 and 140), so the `len >= 3` gate of line 143
passes with only two distinct polled samples; the spec requires at least 3
distinct windowed samples. -/
theorem ota_c5_eta_from_two_samples :
    (update initState 0 [instTick 0 10, instTick 1 20]).isDone = false ∧
    (update initState 0 [instTick 0 10, instTick 1 20]).state.smoothed_eta = some 8 ∧
    (update initState 0 [instTick 0 10, instTick 1 20]).state.progress_history
      = [(0, 10), (0, 10), (1, 20), (1, 20)] := by
  refine ⟨by with_unfolding_all decide, by with_unfolding_all decide,
    by with_unfolding_all decide⟩

/-- Claim C6 (code bug): one installing tick appends TWO identical samples
(lines 133 and 140), and a sample only 16 s old — well within the claimed
30 s window — is evicted, because line 134 first filters the history to a
15 s window before line 141 applies the 30 s one. -/
theorem ota_c6_history_double_append_and_early_eviction :
    (update initState 0 [instTick 0 10]).state.progress_history = [(0, 10), (0, 10)] ∧
    (update initState 0 [instTick 0 10, instTick 16 20]).state.progress_history
      = [(16, 20), (16, 20)] := by
  refine ⟨by with_unfolding_all decide, by with_unfolding_all decide⟩

/-- Claim C9 (counterexample): a failed refresh followed by a successful
one leaves the old failure warning visible through `get_update_status`:
warnings are never cleared, so they do not reflect only the last refresh. -/
theorem ota_c9_warnings_survive_success :
    (refresh (refresh initState (.fail "net down")) (.payload (.dict idleStatus))).is_valid = true ∧
    (get_update_status (refresh (refresh initState (.fail "net down"))
        (.payload (.dict idleStatus))) "os").warnings
      = ["OTA status fetch failed: net down"] := ⟨rfl, rfl⟩

/-- Claim C9 (amended): a successful refresh overwrites the cached
snapshot, the mapped fields and the validity flag, but leaves the warnings
and anomalies lists untouched — they accumulate across refreshes. -/
theorem ota_c9_refresh_overwrites_snapshot_not_warnings
    (c : OtaState) (s : OtaStatus) (n : String) :
    (refresh c (.payload (.dict s))).status = s ∧
    (refresh c (.payload (.dict s))).is_valid = true ∧
    (refresh c (.payload (.dict s))).state_ = some (pyLower s.state) ∧
    (refresh c (.payload (.dict s))).progress = s.progress ∧
    (refresh c (.payload (.dict s))).requires_commit = s.requires_commit ∧
    (refresh c (.payload (.dict s))).warnings = c.warnings ∧
    (refresh c (.payload (.dict s))).anomalies = c.anomalies ∧
    (get_update_status (refresh c (.payload (.dict s))) n).warnings = c.warnings ∧
    (get_update_status (refresh c (.payload (.dict s))) n).anomalies = c.anomalies :=
  ⟨rfl, rfl, rfl, rfl, rfl, rfl, rfl, rfl, rfl⟩

/-- Claim C10 (confirmed): a non-dict raw payload makes `_aux_status` raise
the invalid-payload error, and `refresh` catches it, marks the component
invalid and appends the warning — `refresh` returns normally (it is a
total function of the component state). -/
theorem ota_c10_nondict_refresh (c : OtaState) :
    aux_status .nondict = .error "Invalid OTA status payload (not a dict)" ∧
    refresh c (.payload .nondict) =
      { c with
        is_valid := false
        warnings := c.warnings ++
          ["OTA status fetch failed: Invalid OTA status payload (not a dict)"] } :=
  ⟨rfl, rfl⟩

/-- Claim C2 (confirmed): whenever the loop — in any state — polls a
snapshot whose phase is idle with no error text, the invocation terminates
at that tick returning success, and the last notification is the final
success notice. -/
theorem ota_c2_idle_reached_success (s : LoopSt) (tk : Tick) (rest : List Tick)
    (st0 : OtaStatus) (hres : tk.result = .ok st0)
    (hidle : pyLower st0.state = "idle") (herr : st0.error = "") :
    ∃ s', execLoop s (tk :: rest) = .done s' .success ∧
      s'.notifs.getLast? = some (doneMsg, true) := by
  have hstl : pyLower (pyLower st0.state) = "idle" := by rw [hidle]; decide
  have he : stepTick s tk = stepOkAfter (postPoll s tk.time st0) tk.time tk.time2
      st0.error (pyLower (pyLower st0.state)) st0.progress := by
    simp [stepTick, hres, stepOk_eq2]
  rw [hstl, herr, stepOkAfter_idle] at he
  have hq : execLoop s (tk :: rest) =
      .done (finalize (postPoll s tk.time st0)).1 (finalize (postPoll s tk.time st0)).2 := by
    simp [execLoop, he]
  have hst2 : pyLower ((postPoll s tk.time st0).comp.state_.getD "") = "idle" := by
    rw [postPoll_state_, Option.getD_some]
    exact hstl
  have herr2 : (postPoll s tk.time st0).comp.status.error = "" := by
    rw [postPoll_status]
    exact herr
  rw [finalize_else _ (by rw [hst2]; decide) herr2 (by rw [hst2]; decide)] at hq
  exact ⟨_, hq, by simp [List.getLast?_concat]⟩

/-- Witness for C2 at a concrete input: a fresh invocation that polls an
idle snapshot terminates successfully with a final last notice. -/
theorem ota_c2_witness :
    idleTick.result = .ok idleStatus ∧ pyLower idleStatus.state = "idle" ∧
    idleStatus.error = "" ∧
    ∃ s', execLoop (initLoop initState 0) [idleTick] = .done s' .success ∧
      s'.notifs.getLast? = some (doneMsg, true) :=
  ⟨rfl, by decide, rfl,
    ota_c2_idle_reached_success (initLoop initState 0) idleTick [] idleStatus rfl
      (by decide) rfl⟩

/-- Claim C3 (counterexample): a stall exit while the phase is still
installing is a terminal path (the invocation returns success) on which
zero notifications are flagged final — the closing notice of line 234 is
non-final. -/
theorem ota_c3_stall_path_zero_finals :
    (update initState 0 [instTick 0 20, instTick 61 20]).outcome = some .success ∧
    countFinals (update initState 0 [instTick 0 20, instTick 61 20]).state.notifs = 0 := by
  refine ⟨by with_unfolding_all decide, by with_unfolding_all decide⟩

/-- Claim C3 (amended): in a run that never polls a failed-with-error
snapshot, a terminating invocation emits exactly one final notice — except
the exit whose cached phase is still installing (stall or lost contact),
which instead ends with the single non-final still-in-progress notice and
reports success. -/
theorem ota_c3_amended (c : OtaState) (t0 : ℚ) (ticks : List Tick)
    (hben : ∀ tk ∈ ticks, benignTick tk)
    (hdone : (update c t0 ticks).isDone = true) :
    countFinals (update c t0 ticks).state.notifs = 1 ∨
      (countFinals (update c t0 ticks).state.notifs = 0 ∧
        (update c t0 ticks).outcome = some .success ∧
        (update c t0 ticks).state.notifs.getLast? = some (stillMsg, false)) := by
  have h := (execLoop_countFinals ticks (initLoop c t0) hben rfl).2
  cases hu : update c t0 ticks with
  | outOfInput s1 =>
    rw [hu] at hdone
    simp [RunRes.isDone] at hdone
  | done s1 o =>
    have hu' : execLoop (initLoop c t0) ticks = .done s1 o := hu
    rcases h s1 o hu' with h1 | ⟨h1, h2, h3⟩
    · exact .inl (by simpa [RunRes.state] using h1)
    · exact .inr ⟨by simpa [RunRes.state] using h1,
        by simp [RunRes.outcome, h2], by simpa [RunRes.state] using h3⟩

/-- Witness for the amended C3: the single-idle-poll run terminates with
exactly one final notice. -/
theorem ota_c3_witness :
    (∀ tk ∈ [idleTick], benignTick tk) ∧
    (update initState 0 [idleTick]).isDone = true ∧
    (countFinals (update initState 0 [idleTick]).state.notifs = 1 ∨
      (countFinals (update initState 0 [idleTick]).state.notifs = 0 ∧
        (update initState 0 [idleTick]).outcome = some .success ∧
        (update initState 0 [idleTick]).state.notifs.getLast? = some (stillMsg, false))) := by
  have hben : ∀ tk ∈ [idleTick], benignTick tk := by
    intro tk htk st0 hres herr
    rw [List.mem_singleton] at htk
    rw [htk] at hres
    injection hres with h
    rw [← h] at herr
    exact absurd rfl herr
  exact ⟨hben, by with_unfolding_all decide,
    ota_c3_amended initState 0 [idleTick] hben (by with_unfolding_all decide)⟩

/-- An installing snapshot carrying an error text. -/
def instErrTick (t p : ℚ) : Tick :=
  ⟨t, t, .ok { state := "installing", error := "boom", progress := some p }⟩

/-- Claim C7 (counterexample): a stall after 61 s of unchanged installing
snapshots that carry an error text DOES append the stall warning but then
raises the error out of `update()` (line 225 triggers on the non-empty
error), contradicting the claim that the stall exit returns success. -/
theorem ota_c7_stall_with_error_raises :
    (update initState 0 [instErrTick 0 20, instErrTick 61 20]).outcome
      = some (.raised "boom") ∧
    stallWarn ∈ (update initState 0 [instErrTick 0 20, instErrTick 61 20]).state.comp.warnings := by
  refine ⟨by with_unfolding_all decide, by with_unfolding_all decide⟩

/-- A break whose state carries the stall warning, a non-failed phase and
no error text finishes the invocation successfully. -/
theorem brk_stall_done (s : LoopSt) (tk : Tick) (rest : List Tick) (B : LoopSt)
    (he : stepTick s tk = .brk B)
    (hw : B.comp.warnings = s.comp.warnings ++ [stallWarn])
    (hst : pyLower (B.comp.state_.getD "") ≠ "failed")
    (herr : B.comp.status.error = "") :
    ∃ s', execLoop s (tk :: rest) = .done s' .success ∧
      s'.comp.warnings = s.comp.warnings ++ [stallWarn] := by
  have hq : execLoop s (tk :: rest) = .done (finalize B).1 (finalize B).2 := by
    simp [execLoop, he]
  obtain ⟨ho, hwf⟩ := finalize_success B hst herr
  rw [ho] at hq
  exact ⟨_, hq, by rw [hwf, hw]⟩

/-- Claim C7 (amended): if a poll reports the same non-terminal phase and
the same percent as last observed, carries no error text, and arrives when
more than `PROGRESS_IDLE_TIMEOUT` has elapsed since the last change (with,
for an installing phase, a percent below the reboot threshold and a flat
recent history), then the loop exits at that tick: the stall warning is
appended and `update()` returns success. -/
theorem ota_c7_amended (s : LoopSt) (tk : Tick) (rest : List Tick) (st0 : OtaStatus)
    (hres : tk.result = .ok st0)
    (herr : st0.error = "")
    (hnc : pyLower (pyLower st0.state) ≠ "committing")
    (hni : pyLower (pyLower st0.state) ≠ "idle")
    (hnf : pyLower (pyLower st0.state) ≠ "failed")
    (hpct : st0.progress = s.last_progress)
    (hsame : some (pyLower (pyLower st0.state)) = s.last_state)
    (htime : tk.time2 - s.last_change_time > PROGRESS_IDLE_TIMEOUT)
    (hinst : ∀ p, st0.progress = some p →
        p < REBOOT_NOTICE_PCT ∧ ∀ q ∈ s.progress_history, q.2 = p) :
    ∃ s', execLoop s (tk :: rest) = .done s' .success ∧
      s'.comp.warnings = s.comp.warnings ++ [stallWarn] := by
  have hX : postPoll s tk.time st0 =
      { s with comp := { map_status s.comp st0 with status := st0 }, consecutive_errors := 0 } :=
    postPoll_unchanged s tk.time st0 hpct hsame
  have hlct : (postPoll s tk.time st0).last_change_time = s.last_change_time := by
    rw [hX]
  have he : stepTick s tk = stepOkAfter (postPoll s tk.time st0) tk.time tk.time2
      st0.error (pyLower (pyLower st0.state)) st0.progress := by
    simp [stepTick, hres, stepOk_eq2]
  rw [herr] at he
  unfold stepOkAfter at he
  dsimp only at he
  rw [if_neg (by simp)] at he
  rw [if_neg (fun hq => hnc hq.1)] at he
  rw [if_neg (by rintro (hq | hq); exacts [hni hq, hnf hq])] at he
  by_cases hsti : pyLower (pyLower st0.state) = "installing"
  · rw [if_pos hsti] at he
    cases hp : st0.progress with
    | none =>
      rw [hp] at he
      dsimp only at he
      rw [if_neg (by simp)] at he
      rw [hlct, if_pos htime] at he
      refine brk_stall_done s tk rest _ he ?_ ?_ ?_
      · simp
      · simpa using hnf
      · simpa using herr
    | some p =>
      obtain ⟨hplt, hflat⟩ := hinst p hp
      rw [hp] at he
      dsimp only at he
      have hflatX : ∀ q ∈ (postPoll s tk.time st0).progress_history, q.2 = p := by
        rw [postPoll_hist]
        exact hflat
      have hf := installingStep_no_eta (postPoll s tk.time st0) tk.time p hflatX hplt
      rw [hf] at he
      rw [if_neg (by simp)] at he
      rw [installingStep_lct, hlct, if_pos htime] at he
      refine brk_stall_done s tk rest _ he ?_ ?_ ?_
      · simp
      · simpa using hnf
      · simpa using herr
  · rw [if_neg hsti] at he
    dsimp only at he
    rw [if_neg (by simp)] at he
    rw [hlct, if_pos htime] at he
    refine brk_stall_done s tk rest _ he ?_ ?_ ?_
    · simp
    · simpa using hnf
    · simpa using herr

/-- A concrete mid-run loop state: one installing sample at 30% observed
at time 0, nothing since. -/
def c7wStatus : OtaStatus := { state := "installing", progress := some 30 }

def c7wSt : LoopSt :=
  { comp := { initState with status := c7wStatus, progress := some 30, state_ := some "installing" }
    last_progress := some 30
    last_announced_pct := some 30
    last_state := some "installing"
    last_change_time := 0
    consecutive_errors := 0
    reboot_announced := false
    progress_history := [(0, 30)]
    spin_idx := 1
    smoothed_eta := none
    notifs := [(startMsg, false)] }

def c7wTick : Tick := ⟨62, 62, .ok c7wStatus⟩

/-- Witness for the amended C7: an unchanged installing poll arriving 62 s
after the last change exits the loop with the stall warning and success. -/
theorem ota_c7_witness :
    c7wStatus.error = "" ∧
    c7wTick.time2 - c7wSt.last_change_time > PROGRESS_IDLE_TIMEOUT ∧
    ∃ s', execLoop c7wSt [c7wTick] = .done s' .success ∧
      s'.comp.warnings = c7wSt.comp.warnings ++ [stallWarn] := by
  refine ⟨rfl, by with_unfolding_all decide, ?_⟩
  refine ota_c7_amended c7wSt c7wTick [] c7wStatus rfl rfl (by decide) (by decide)
    (by decide) rfl rfl (by with_unfolding_all decide) ?_
  intro p hp
  injection hp with h
  constructor
  · rw [← h]
    with_unfolding_all decide
  · intro q hq
    have hl : c7wSt.progress_history = [(0, 30)] := rfl
    rw [hl, List.mem_singleton] at hq
    rw [hq]
    exact h

/-- Claim C8 (counterexample): a successful poll whose snapshot reports
failed with a non-empty error does NOT leave the counter at zero: the
caught raise of line 119 increments it to 1 within the same tick. -/
theorem ota_c8_failed_error_tick_counter_one :
    failedBoomTick.result = .ok failedBoomStatus ∧
    (stepTick (initLoop initState 0) failedBoomTick).state.consecutive_errors = 1 := by
  refine ⟨rfl, by with_unfolding_all decide⟩

/-- Claim C8 (amended): (a) a successful poll whose snapshot is not
failed-with-error leaves the consecutive-error counter at zero; (b) six
consecutive poll failures from a reset counter terminate the loop and
append the lost-contact warning; (c) one poll failure followed by a
successful poll never records a lost-contact warning (at most the stall
warning can be added). -/
theorem ota_c8_amended :
    (∀ (s : LoopSt) (tk : Tick) (st0 : OtaStatus), tk.result = .ok st0 →
      (st0.error ≠ "" → pyLower (pyLower st0.state) ≠ "failed") →
      (stepTick s tk).state.consecutive_errors = 0) ∧
    (∀ (s : LoopSt) (t1 t2 t3 t4 t5 t6 : Tick) (rest : List Tick)
        (m1 m2 m3 m4 m5 m6 : String),
      s.consecutive_errors = 0 →
      t1.result = .error m1 → t2.result = .error m2 → t3.result = .error m3 →
      t4.result = .error m4 → t5.result = .error m5 → t6.result = .error m6 →
      ∃ s' o, execLoop s (t1 :: t2 :: t3 :: t4 :: t5 :: t6 :: rest) = .done s' o ∧
        s'.comp.warnings = s.comp.warnings ++ ["Lost contact with OTA service: " ++ m6]) ∧
    (∀ (s : LoopSt) (tkF tkO : Tick) (mF : String) (st0 : OtaStatus),
      s.consecutive_errors = 0 → tkF.result = .error mF → tkO.result = .ok st0 →
      (execLoop s [tkF, tkO]).state.comp.warnings = s.comp.warnings ∨
        (execLoop s [tkF, tkO]).state.comp.warnings = s.comp.warnings ++ [stallWarn]) := by
  refine ⟨?_, ?_, ?_⟩
  · intro s tk st0 hres hben
    have he : stepTick s tk = stepOk s tk.time tk.time2 st0 := by
      simp [stepTick, hres]
    rcases stepOk_classify s tk.time tk.time2 st0 with
      ⟨s₁, hq, _, _, _, herr, hfl⟩ | ⟨s₁, hq, _, _, hc⟩ | ⟨s₁, hq, _, _, hc⟩ |
        ⟨s₁, hq, _, _, hc⟩
    · exact absurd hfl (hben herr)
    · rw [he, hq]
      simpa [StepRes.state] using hc
    · rw [he, hq]
      simpa [StepRes.state] using hc
    · rw [he, hq]
      simpa [StepRes.state] using hc
  · intro s t1 t2 t3 t4 t5 t6 rest m1 m2 m3 m4 m5 m6 hc h1 h2 h3 h4 h5 h6
    rw [execLoop_fail_cont s t1 _ m1 h1 (by simp [hc, MAX_CONSECUTIVE_ERRORS])]
    rw [execLoop_fail_cont _ t2 _ m2 h2 (by simp [hc, MAX_CONSECUTIVE_ERRORS])]
    rw [execLoop_fail_cont _ t3 _ m3 h3 (by simp [hc, MAX_CONSECUTIVE_ERRORS])]
    rw [execLoop_fail_cont _ t4 _ m4 h4 (by simp [hc, MAX_CONSECUTIVE_ERRORS])]
    rw [execLoop_fail_cont _ t5 _ m5 h5 (by simp [hc, MAX_CONSECUTIVE_ERRORS])]
    rw [execLoop_fail_brk _ t6 rest m6 h6 (by simp [hc, MAX_CONSECUTIVE_ERRORS])]
    refine ⟨_, _, rfl, ?_⟩
    rw [finalize_warnings, addWarning_warnings]
  · intro s tkF tkO mF st0 hc hF hO
    rw [execLoop_fail_cont s tkF [tkO] mF hF (by simp [hc, MAX_CONSECUTIVE_ERRORS])]
    have he : stepTick { s with consecutive_errors := s.consecutive_errors + 1 } tkO
        = stepOk { s with consecutive_errors := s.consecutive_errors + 1 }
            tkO.time tkO.time2 st0 := by
      simp [stepTick, hO]
    rcases stepOk_classify { s with consecutive_errors := s.consecutive_errors + 1 }
        tkO.time tkO.time2 st0 with
      ⟨s₁, hq, _, hw, _, _, _⟩ | ⟨s₁, hq, _, hw, _⟩ | ⟨s₁, hq, _, hw, _⟩ | ⟨s₁, hq, _, hw, _⟩
    · have hs : stepTick { s with consecutive_errors := s.consecutive_errors + 1 } tkO
          = .cont s₁ := he.trans hq
      have hq2 : execLoop { s with consecutive_errors := s.consecutive_errors + 1 } [tkO]
          = .outOfInput s₁ := by
        simp [execLoop, hs]
      rw [hq2]
      exact .inl (by simp [RunRes.state, hw])
    · have hs : stepTick { s with consecutive_errors := s.consecutive_errors + 1 } tkO
          = .ret s₁ := he.trans hq
      have hq2 : execLoop { s with consecutive_errors := s.consecutive_errors + 1 } [tkO]
          = .done s₁ .success := by
        simp [execLoop, hs]
      rw [hq2]
      exact .inl (by simp [RunRes.state, hw])
    · have hs : stepTick { s with consecutive_errors := s.consecutive_errors + 1 } tkO
          = .brk s₁ := he.trans hq
      have hq2 : execLoop { s with consecutive_errors := s.consecutive_errors + 1 } [tkO]
          = .done (finalize s₁).1 (finalize s₁).2 := by
        simp [execLoop, hs]
      rw [hq2]
      rcases hw with hw | hw
      · exact .inl (by simp [RunRes.state, finalize_warnings, hw])
      · exact .inr (by simp [RunRes.state, finalize_warnings, hw])
    · have hs : stepTick { s with consecutive_errors := s.consecutive_errors + 1 } tkO
          = .cont s₁ := he.trans hq
      have hq2 : execLoop { s with consecutive_errors := s.consecutive_errors + 1 } [tkO]
          = .outOfInput s₁ := by
        simp [execLoop, hs]
      rw [hq2]
      exact .inl (by simp [RunRes.state, hw])

/-- A poll that raises with exception text `"down"`. -/
def failTick : Tick := ⟨0, 0, .error "down"⟩

/-- Witness for the amended C8 at concrete inputs. -/
theorem ota_c8_witness :
    failTick.result = .error "down" ∧
    (initLoop initState 0).consecutive_errors = 0 ∧
    ((stepTick (initLoop initState 0) idleTick).state.consecutive_errors = 0) ∧
    (∃ s' o, execLoop (initLoop initState 0)
        [failTick, failTick, failTick, failTick, failTick, failTick] = .done s' o ∧
      s'.comp.warnings = (initLoop initState 0).comp.warnings ++
        ["Lost contact with OTA service: " ++ "down"]) ∧
    ((execLoop (initLoop initState 0) [failTick, idleTick]).state.comp.warnings
        = (initLoop initState 0).comp.warnings ∨
      (execLoop (initLoop initState 0) [failTick, idleTick]).state.comp.warnings
        = (initLoop initState 0).comp.warnings ++ [stallWarn]) := by
  refine ⟨rfl, rfl, ?_, ?_, ?_⟩
  · exact ota_c8_amended.1 (initLoop initState 0) idleTick idleStatus rfl
      (fun h => absurd rfl h)
  · exact ota_c8_amended.2.1 (initLoop initState 0) failTick failTick failTick failTick
      failTick failTick [] "down" "down" "down" "down" "down" "down" rfl rfl rfl rfl rfl rfl rfl
  · exact ota_c8_amended.2.2 (initLoop initState 0) failTick idleTick "down" idleStatus
      rfl rfl rfl

end OtaDeploy
